import Mathlib

/-!
# Verification of the CoDATS model library and analysis script

A shallow embedding, in Lean 4, of the two source files of the repository
(`models.py` and `analysis.py`), together with theorems settling the frozen
claims about them.

Conventions:
* TensorFlow tensors are modelled as flat lists of rationals (`Tensor`).
* A TensorFlow custom-gradient function is modelled as the pair the source
  returns: the forward value together with the backward (pullback) function.
* Keras layers/sub-models with weights are modelled as records carrying their
  list of trainable variables (as opaque identifiers) and their forward map.
* Python `assert` failures and raised exceptions are modelled with `Except`
  and dedicated outcome constructors.
-/

namespace Codats

/-- A TensorFlow tensor, flattened to a list of scalars (rationals). -/
abbrev Tensor := List ℚ

/-- Elementwise negation, `tf.negative`. -/
def negT (t : Tensor) : Tensor := t.map (fun v => -v)

/-- Scalar multiplication of a tensor (broadcasting a scalar factor). -/
def scaleT (c : ℚ) (t : Tensor) : Tensor := t.map (fun v => c * v)

/-- `tf.ones_like`: a tensor of ones with the shape of the argument. -/
def onesLike (t : Tensor) : Tensor := t.map (fun _ => 1)

/-- Elementwise product of two tensors of the same shape. -/
def mulT (a b : Tensor) : Tensor := List.zipWith (· * ·) a b

/-! ## models.py: gradient reversal -/

/-- `flip_gradient` (models.py): a `tf.custom_gradient` function.  The forward
pass returns `x` unchanged; the backward pass maps an incoming cotangent `dy`
to `tf.negative(dy) * grl_lambda * tf.ones_like(x)` for the `x` argument and
`0` for the `grl_lambda` argument. -/
def flip_gradient (x : Tensor) (grl_lambda : ℚ) :
    Tensor × (Tensor → Tensor × ℚ) :=
  (x, fun dy => (mulT (scaleT grl_lambda (negT dy)) (onesLike x), 0))

/-- The `FlipGradient` Keras layer (models.py): stores the global step and the
GRL schedule. -/
structure FlipGradient where
  global_step : ℕ
  grl_schedule : ℕ → ℚ

/-- `FlipGradient.call`: compute `grl_lambda` from the schedule at the current
global step, then apply `flip_gradient`. -/
def FlipGradient.call (l : FlipGradient) (inputs : Tensor) :
    Tensor × (Tensor → Tensor × ℚ) :=
  flip_gradient inputs (l.grl_schedule l.global_step)

/-- `StopGradient.call` (models.py): `tf.stop_gradient` is the identity on
values (only the gradient is cut). -/
def StopGradient.call (inputs : Tensor) : Tensor := inputs

/-! ## models.py: the model base classes

A Keras layer or sub-model is modelled by its list of trainable variables
(opaque identifiers) together with its forward map and its pullback
(vector-Jacobian product), the two pieces of it the claims touch. -/

structure KLayer where
  trainableVariables : List ℕ
  fwd : Tensor → Tensor
  bwd : Tensor → Tensor → Tensor

/-- The three components every `ModelBase` subclass owns (set by
`CnnModelBase.__init__` from `get_model`, or by `RnnModelBase.__init__`). -/
structure ModelParts where
  feature_extractor : KLayer
  task_classifier : KLayer
  domain_classifier : KLayer

namespace ModelBase

def trainable_variables_fe (m : ModelParts) : List ℕ :=
  m.feature_extractor.trainableVariables

def trainable_variables_task (m : ModelParts) : List ℕ :=
  trainable_variables_fe m ++ m.task_classifier.trainableVariables

def trainable_variables_domain (m : ModelParts) : List ℕ :=
  m.domain_classifier.trainableVariables

def trainable_variables_task_domain (m : ModelParts) : List ℕ :=
  trainable_variables_fe m ++ m.task_classifier.trainableVariables
    ++ trainable_variables_domain m

def call_feature_extractor (m : ModelParts) (inputs : Tensor) : Tensor :=
  m.feature_extractor.fwd inputs

def call_task_classifier (m : ModelParts) (fe : Tensor) : Tensor :=
  m.task_classifier.fwd fe

/-- `ModelBase.call_domain_classifier(self, fe, task)`: the base class ignores
`task` and applies the domain classifier directly to `fe`. -/
def call_domain_classifier (m : ModelParts) (fe task : Tensor) : Tensor :=
  m.domain_classifier.fwd fe

/-- `ModelBase.call`: compute `fe` once, feed it to the task classifier and
(via `call_domain_classifier`) the domain classifier, return the triple. -/
def call (m : ModelParts) (inputs : Tensor) : Tensor × Tensor × Tensor :=
  let fe := call_feature_extractor m inputs
  let task := call_task_classifier m fe
  let domain := call_domain_classifier m fe task
  (task, domain, fe)

end ModelBase

/-! ## models.py: DANN variants -/

/-- A model mixing in `DannModelBase`: the components of `ModelBase` plus the
`FlipGradient` layer created in `DannModelBase.__init__`. -/
structure DannModel extends ModelParts where
  flip_gradient : FlipGradient

/-- `DannModelBase.__init__`: stores `FlipGradient(global_step, grl_schedule)`
where `grl_schedule = DannGrlSchedule(total_steps)`.  The schedule itself
(`2/(1+exp(-10*(step/(num_steps+1))))-1`, a real-valued function through
`tf.exp`) is kept abstract as the function argument. -/
def DannModelBase.init (parts : ModelParts) (global_step : ℕ)
    (grl_schedule : ℕ → ℚ) : DannModel :=
  { parts with flip_gradient := ⟨global_step, grl_schedule⟩ }

/-- `DannModelBase.call_domain_classifier`: pass `fe` through the gradient
reversal layer, then apply the domain classifier to the GRL output. -/
def DannModelBase.call_domain_classifier (m : DannModel) (fe task : Tensor) :
    Tensor :=
  let grl_output := (m.flip_gradient.call fe).1
  m.domain_classifier.fwd grl_output

/-- `call` for a class mixing `DannModelBase` into `CnnModelBase`
(e.g. `DannModel`): `ModelBase.call` with the overridden domain-classifier
method. -/
def DannModel.call (m : DannModel) (inputs : Tensor) :
    Tensor × Tensor × Tensor :=
  let fe := ModelBase.call_feature_extractor m.toModelParts inputs
  let task := ModelBase.call_task_classifier m.toModelParts fe
  let domain := DannModelBase.call_domain_classifier m fe task
  (task, domain, fe)

/-- Reverse-mode composition through the DANN domain path: the cotangent `dy`
arriving at the domain output is pulled back through the domain classifier and
then through `flip_gradient`'s custom gradient, yielding the cotangent at the
raw feature-extractor output `fe`. -/
def DannModelBase.domain_vjp (m : DannModel) (fe dy : Tensor) : Tensor :=
  let p := m.flip_gradient.call fe
  (p.2 (m.domain_classifier.bwd p.1 dy)).1

/-- `HeterogeneousDannModel`: like `DannModel` but `self.feature_extractor` is
replaced in `__init__` by a list of feature extractors. -/
structure HeterogeneousDannModel where
  feature_extractor : List KLayer
  task_classifier : KLayer
  domain_classifier : KLayer
  flip_gradient : FlipGradient

/-- `HeterogeneousDannModel.__init__`: keep the existing feature extractor and
append `num_feature_extractors - 1` clones (the loop runs over
`range(1, num_feature_extractors)`).  `tf.keras.models.clone_model` produces a
fresh model with fresh weights on each call; it is modelled by the function
`clone_model` from the loop index. -/
def HeterogeneousDannModel.init (base : DannModel)
    (num_feature_extractors : ℕ) (clone_model : ℕ → KLayer) :
    HeterogeneousDannModel :=
  { feature_extractor :=
      base.feature_extractor :: (List.range' 1 (num_feature_extractors - 1)).map clone_model
    task_classifier := base.task_classifier
    domain_classifier := base.domain_classifier
    flip_gradient := base.flip_gradient }

/-- `HeterogeneousDannModel.trainable_variables_fe`: accumulate the trainable
variables of every feature extractor in order. -/
def HeterogeneousDannModel.trainable_variables_fe
    (m : HeterogeneousDannModel) : List ℕ :=
  m.feature_extractor.foldl (fun acc fe => acc ++ fe.trainableVariables) []

/-- `HeterogeneousDannModel.call_feature_extractor`: asserts that `which_fe`
was given, then indexes into the list of feature extractors.  Python `assert`
failures and bad indices are modelled with `Except`. -/
def HeterogeneousDannModel.call_feature_extractor
    (m : HeterogeneousDannModel) (inputs : Tensor) (which_fe : Option ℕ) :
    Except String Tensor :=
  match which_fe with
  | none => .error "must specify which feature extractor to use"
  | some i =>
    match m.feature_extractor.get? i with
    | none => .error "IndexError"
    | some fe => .ok (fe.fwd inputs)

/-- `HeterogeneousDannModel.call_domain_classifier`: a copy of the DANN
version, only dropping the `which_fe` argument. -/
def HeterogeneousDannModel.call_domain_classifier
    (m : HeterogeneousDannModel) (fe task : Tensor) (which_fe : Option ℕ) :
    Tensor :=
  let grl_output := (m.flip_gradient.call fe).1
  m.domain_classifier.fwd grl_output

/-- `SleepModel`: DANN plus a `Concatenate(axis=1)` and a `StopGradient`
layer.  Concatenation along the feature axis is list append. -/
structure SleepModel extends DannModel

/-- `SleepModel.call_domain_classifier`: concatenate the GRL output with the
stop-gradiented task output, then apply the domain classifier. -/
def SleepModel.call_domain_classifier (m : SleepModel) (fe task : Tensor) :
    Tensor :=
  let grl_output := (m.flip_gradient.call fe).1
  let task_stop_gradient := StopGradient.call task
  let domain_input := grl_output ++ task_stop_gradient
  m.domain_classifier.fwd domain_input

/-- `DannSmoothModel`: like `DannModel` but `self.domain_classifier` is
replaced in `__init__` by a list of domain classifiers. -/
structure DannSmoothModel where
  feature_extractor : KLayer
  task_classifier : KLayer
  domain_classifier : List KLayer
  flip_gradient : FlipGradient

/-- `DannSmoothModel.__init__`: keep the existing domain classifier and append
`num_domain_classifiers - 1` clones (loop over
`range(1, num_domain_classifiers)`). -/
def DannSmoothModel.init (base : DannModel) (num_domain_classifiers : ℕ)
    (clone_model : ℕ → KLayer) : DannSmoothModel :=
  { feature_extractor := base.feature_extractor
    task_classifier := base.task_classifier
    domain_classifier :=
      base.domain_classifier :: (List.range' 1 (num_domain_classifiers - 1)).map clone_model
    flip_gradient := base.flip_gradient }

/-- `DannSmoothModel.trainable_variables_domain`: accumulate the trainable
variables of every domain classifier in order. -/
def DannSmoothModel.trainable_variables_domain (m : DannSmoothModel) :
    List ℕ :=
  m.domain_classifier.foldl (fun acc dc => acc ++ dc.trainableVariables) []

/-- `DannSmoothModel.call_domain_classifier`: asserts `which_dc` was given,
passes `fe` through the GRL, and applies the selected domain classifier. -/
def DannSmoothModel.call_domain_classifier (m : DannSmoothModel)
    (fe task : Tensor) (which_dc : Option ℕ) : Except String Tensor :=
  match which_dc with
  | none => .error "must specify which domain classifier to use with method Smooth"
  | some i =>
    let grl_output := (m.flip_gradient.call fe).1
    match m.domain_classifier.get? i with
    | none => .error "IndexError"
    | some dc => .ok (dc.fwd grl_output)

/-! ## models.py: recurrent models (VRADA / R-DANN) -/

/-- `VradaFeatureExtractor` (models.py).  `__init__` stores in `self.rnn`
either a `VRNN(100, 100, return_z=True, return_sequences=False)` (when
`vrada=True`) or a `tf.keras.layers.LSTM(100, return_sequences=False)`
(when `vrada=False`), plus a dense stack `self.fe`.

The `VRNN` class comes from the repository's `vrnn.py`, which is not under
src/; from its use site it is a layer returning a pair
(output, RNN latent state), kept abstract here as `vrnn_layer`.  The LSTM
layer returns a single output tensor, kept abstract as `lstm_layer`.  The
source stores only the branch selected by `vrada`; we carry both and select
on `vrada` in `call` exactly where `__init__` selects. -/
structure VradaFeatureExtractor where
  vrada : Bool
  vrnn_layer : Tensor → Tensor × Tensor
  lstm_layer : Tensor → Tensor
  fe : Tensor → Tensor

/-- `VradaFeatureExtractor.call`: when `vrada`, unpack the VRNN's
(output, state) pair; otherwise run the LSTM and set `rnn_state = None`.
Either way the dense stack is applied to the RNN output only, and the pair
(fe_output, rnn_state) is returned. -/
def VradaFeatureExtractor.call (m : VradaFeatureExtractor)
    (inputs : Tensor) : Tensor × Option Tensor :=
  if m.vrada then
    let p := m.vrnn_layer inputs
    let rnn_output := p.1
    let rnn_state := p.2
    (m.fe rnn_output, some rnn_state)
  else
    let rnn_output := m.lstm_layer inputs
    (m.fe rnn_output, none)

/-- A model mixing `DannModelBase` into `RnnModelBase`, the shape shared by
`VradaModel` and `RDannModel`.  `RnnModelBase.__init__` builds the
`VradaFeatureExtractor` plus dense task/domain classifiers;
`DannModelBase.__init__` adds the `FlipGradient` layer. -/
structure RnnDannModel where
  num_classes : ℕ
  num_domains : ℕ
  feature_extractor : VradaFeatureExtractor
  task_classifier : KLayer
  domain_classifier : KLayer
  flip_gradient : FlipGradient

/-- `VradaModel.__init__` passes `vrada=True` down to `RnnModelBase`. -/
def VradaModel.init (num_classes num_domains : ℕ)
    (vrnn_layer : Tensor → Tensor × Tensor) (lstm_layer : Tensor → Tensor)
    (fe : Tensor → Tensor) (task_classifier domain_classifier : KLayer)
    (global_step : ℕ) (grl_schedule : ℕ → ℚ) : RnnDannModel :=
  { num_classes, num_domains
    feature_extractor := ⟨true, vrnn_layer, lstm_layer, fe⟩
    task_classifier, domain_classifier
    flip_gradient := ⟨global_step, grl_schedule⟩ }

/-- `RDannModel.__init__` passes `vrada=False` down to `RnnModelBase`. -/
def RDannModel.init (num_classes num_domains : ℕ)
    (vrnn_layer : Tensor → Tensor × Tensor) (lstm_layer : Tensor → Tensor)
    (fe : Tensor → Tensor) (task_classifier domain_classifier : KLayer)
    (global_step : ℕ) (grl_schedule : ℕ → ℚ) : RnnDannModel :=
  { num_classes, num_domains
    feature_extractor := ⟨false, vrnn_layer, lstm_layer, fe⟩
    task_classifier, domain_classifier
    flip_gradient := ⟨global_step, grl_schedule⟩ }

/-- `RnnModelBase.call`: the feature extractor returns the pair
`fe = (output, state)`, and only `fe[0]` is passed to the task and domain
classifiers; the whole pair is returned as the third component.  In both
concrete subclasses (`VradaModel`, `RDannModel`) `DannModelBase` is mixed in,
so `call_domain_classifier` resolves to the GRL version. -/
def RnnModelBase.call (m : RnnDannModel) (inputs : Tensor) :
    Tensor × Tensor × (Tensor × Option Tensor) :=
  let fe := m.feature_extractor.call inputs
  let task := m.task_classifier.fwd fe.1
  let domain := m.domain_classifier.fwd ((m.flip_gradient.call fe.1).1)
  (task, domain, fe)

/-! ## models.py: the model registry and the built-in builders

Architectures are embedded as data: a Keras layer is a constructor carrying
the arguments the source passes, and a `tf.keras.Sequential` is the list of
its layers.  Custom composite layers (`InceptionFeatureExtractor`,
`ResnetBlock`, `WangResnetBlock`, ...) are constructors carrying their
`__init__` arguments. -/

inductive ArchLayer where
  | conv1d (filters kernel_size : ℕ) (padding : String) (use_bias : Bool)
  | conv2d (filters : ℕ) (kernel strides : ℕ × ℕ) (padding : String)
      (act : Option String)
  | batchNorm
  | layerNorm
  | act (name : String)
  | reluLayer
  | leakyRelu (alpha : ℚ)
  | gaussianNoise (stddev : ℚ)
  | dropout (rate : ℚ)
  | dense (units : ℕ) (act : Option String) (use_bias : Bool)
  | flatten
  | globalAvgPool1d
  | globalAvgPool2d
  | maxPool2d (pool strides : ℕ × ℕ) (padding : String)
  | gru (units : ℕ) (return_sequences : Bool)
  | seq (layers : List ArchLayer)
  | resnetBlock (units : ℕ) (drop : ℚ) (layers : ℕ) (layer_norm : Bool)
  | wangResnetBlock (n_feature_maps : ℕ) (shortcut_resize : Bool)
  | inceptionFeatureExtractor (num_blocks : ℕ)
  | resnet50 (include_top : Bool) (pooling : String)

/-- A Keras `Sequential` (or single application model): its layer list. -/
abbrev Arch := List ArchLayer

/-- What every built-in builder returns: the
(feature extractor, task classifier, domain classifier) triple. -/
abbrev ModelTriple := Arch × Arch × Arch

/-- A registered builder, called by `get_model` with
`(num_classes, num_domains)`. -/
abbrev Builder := ℕ → ℕ → ModelTriple

/-- The module-level `models` dict: an insertion-ordered association list. -/
abbrev Registry := List (String × Builder)

/-- `register_model(name)` applied to a class/function `cls`: asserts the name
is not already present, then inserts `models[name] = cls`. -/
def register_model (name : String) (cls : Builder) (models : Registry) :
    Except String Registry :=
  if (models.lookup name).isSome then
    .error ("duplicate model named " ++ name)
  else
    .ok (models ++ [(name, cls)])

/-- `get_model(name, *args)`: asserts the name is registered, then calls the
registered builder on the arguments. -/
def get_model (models : Registry) (name : String)
    (num_classes num_domains : ℕ) : Except String ModelTriple :=
  match models.lookup name with
  | none => .error ("Unknown model name " ++ name)
  | some cls => .ok (cls num_classes num_domains)

/-- `list_models()`: the registered names, in insertion order. -/
def list_models (models : Registry) : List String := models.map (·.1)

/-- `make_dense_bn_dropout(units, dropout)` (models.py). -/
def make_dense_bn_dropout (units : ℕ) (drop : ℚ) : ArchLayer :=
  .seq [.dense units none false, .batchNorm, .act "relu", .dropout drop]

/-- `make_dense_ln_dropout(units, dropout)` (models.py). -/
def make_dense_ln_dropout (units : ℕ) (drop : ℚ) : ArchLayer :=
  .seq [.dense units none false, .layerNorm, .act "relu", .dropout drop]

/-- The domain classifier shared verbatim by the fcn / inceptiontime / mlp /
resnet builders: two Dense(500)+BN+ReLU+Dropout(0.3) blocks then
Dense(num_domains). -/
def fcn_domain_classifier (num_domains : ℕ) : Arch :=
  [.dense 500 none false, .batchNorm, .act "relu", .dropout (3/10),
   .dense 500 none false, .batchNorm, .act "relu", .dropout (3/10),
   .dense num_domains none true]

/-- `make_model_fcn` (registered as "fcn"). -/
def make_model_fcn (num_classes num_domains : ℕ) : ModelTriple :=
  ([.conv1d 128 8 "same" false, .batchNorm, .act "relu",
    .conv1d 256 5 "same" false, .batchNorm, .act "relu",
    .conv1d 128 3 "same" false, .batchNorm, .act "relu",
    .globalAvgPool1d],
   [.dense num_classes none true],
   fcn_domain_classifier num_domains)

/-- `make_model_inceptiontime` (registered as "inceptiontime"). -/
def make_model_inceptiontime (num_classes num_domains : ℕ) : ModelTriple :=
  ([.inceptionFeatureExtractor 2],
   [.dense num_classes none true],
   fcn_domain_classifier num_domains)

/-- `make_mlp_model` (registered as "mlp"). -/
def make_mlp_model (num_classes num_domains : ℕ) : ModelTriple :=
  ([.flatten, .dropout (1/10), .dense 500 (some "relu") true, .dropout (1/5),
    .dense 500 (some "relu") true, .dropout (1/5)],
   [.dense 500 (some "relu") true, .dropout (3/10), .dense num_classes none true],
   fcn_domain_classifier num_domains)

/-- `make_resnet_model` (registered as "resnet"). -/
def make_resnet_model (num_classes num_domains : ℕ) : ModelTriple :=
  ([.wangResnetBlock 64 true, .wangResnetBlock 128 true,
    .wangResnetBlock 128 false, .globalAvgPool1d],
   [.dense num_classes none true],
   fcn_domain_classifier num_domains)

/-- The local `make_classifier(layers, num_outputs)` inside
`make_timenet_model`. -/
def timenet_classifier (units : ℕ) (drop : ℚ) (layers num_outputs : ℕ) :
    Arch :=
  (List.range (layers - 1)).map (fun _ => make_dense_bn_dropout units drop)
    ++ [.dense num_outputs none true]

/-- `make_timenet_model` (registered as "timenet").  `dropout` is read from
`FLAGS.dropout`, passed here as a parameter. -/
def make_timenet_model (dropout : ℚ) (num_classes num_domains : ℕ) :
    ModelTriple :=
  ([.gru 60 true, .gru 60 true, .gru 60 false, .flatten]
     ++ (List.range 2).map (fun _ => make_dense_bn_dropout 50 dropout)
     ++ (List.range 4).map (fun _ => .resnetBlock 50 dropout 2 false),
   [.seq (timenet_classifier 50 dropout 1 num_classes)],
   [.seq (timenet_classifier 50 dropout 2 num_domains)])

/-- `make_dann_mnist_model` (registered as "images_dann_mnist"). -/
def make_dann_mnist_model (num_classes num_domains : ℕ) : ModelTriple :=
  ([.conv2d 32 (5, 5) (1, 1) "valid" (some "relu"),
    .maxPool2d (2, 2) (2, 2) "valid",
    .conv2d 48 (5, 5) (1, 1) "valid" (some "relu"),
    .maxPool2d (2, 2) (2, 2) "valid",
    .flatten],
   [.dense 100 (some "relu") true, .dense 100 (some "relu") true,
    .dense num_classes none true],
   [.dense 100 (some "relu") true, .dense num_domains none true])

/-- `make_dann_svhn_model` (registered as "images_dann_svhn").  `dropout` is
`FLAGS.dropout`. -/
def make_dann_svhn_model (dropout : ℚ) (num_classes num_domains : ℕ) :
    ModelTriple :=
  ([.conv2d 64 (5, 5) (1, 1) "same" none, .batchNorm, .reluLayer,
    .maxPool2d (3, 3) (2, 2) "same", .dropout dropout,
    .conv2d 64 (5, 5) (1, 1) "same" none, .batchNorm, .reluLayer,
    .maxPool2d (3, 3) (2, 2) "same", .dropout dropout,
    .conv2d 128 (5, 5) (1, 1) "same" none, .batchNorm, .reluLayer,
    .flatten],
   [.dense 3072 none true, .batchNorm, .reluLayer, .dropout dropout,
    .dense 2048 none true, .batchNorm, .reluLayer, .dropout dropout,
    .dense num_classes none true],
   [.dense 1024 none true, .batchNorm, .reluLayer, .dropout dropout,
    .dense 1024 none true, .batchNorm, .reluLayer, .dropout dropout,
    .dense num_domains none true])

/-- `make_dann_gtsrb_model` (registered as "images_dann_gtsrb"). -/
def make_dann_gtsrb_model (num_classes num_domains : ℕ) : ModelTriple :=
  ([.conv2d 96 (5, 5) (1, 1) "valid" (some "relu"),
    .maxPool2d (2, 2) (2, 2) "valid",
    .conv2d 144 (3, 3) (1, 1) "valid" (some "relu"),
    .maxPool2d (2, 2) (2, 2) "valid",
    .conv2d 256 (5, 5) (1, 1) "valid" (some "relu"),
    .maxPool2d (2, 2) (2, 2) "valid",
    .flatten],
   [.dense 512 (some "relu") true, .dense num_classes none true],
   [.dense 1024 (some "relu") true, .dense 1024 (some "relu") true,
    .dense num_domains none true])

/-- `conv_blocks(depth)` inside `make_vada_model`: three
Conv2D+BN+LeakyReLU(0.1) blocks. -/
def vada_conv_blocks (depth : ℕ) : List ArchLayer :=
  [.conv2d depth (3, 3) (1, 1) "same" none, .batchNorm, .leakyRelu (1/10),
   .conv2d depth (3, 3) (1, 1) "same" none, .batchNorm, .leakyRelu (1/10),
   .conv2d depth (3, 3) (1, 1) "same" none, .batchNorm, .leakyRelu (1/10)]

/-- `pool_blocks()` inside `make_vada_model`. -/
def vada_pool_blocks : List ArchLayer :=
  [.maxPool2d (2, 2) (2, 2) "same", .dropout (1/2), .gaussianNoise 1]

/-- `make_vada_model(num_classes, num_domains, small)`. -/
def make_vada_model (num_classes num_domains : ℕ) (small : Bool) :
    ModelTriple :=
  (vada_conv_blocks (if small then 64 else 96) ++ vada_pool_blocks
     ++ vada_conv_blocks (if small then 64 else 192) ++ vada_pool_blocks,
   vada_conv_blocks (if small then 64 else 192)
     ++ [.globalAvgPool2d, .flatten, .dense num_classes none true],
   [.flatten, .dense 100 none true, .batchNorm, .reluLayer,
    .dense num_domains none true])

/-- `make_vada_model_small` (registered as "images_vada_small"). -/
def make_vada_model_small (num_classes num_domains : ℕ) : ModelTriple :=
  make_vada_model num_classes num_domains true

/-- `make_vada_model_large` (registered as "images_vada_large"). -/
def make_vada_model_large (num_classes num_domains : ℕ) : ModelTriple :=
  make_vada_model num_classes num_domains false

/-- `make_resnet50_model` (registered as "images_resnet50"). -/
def make_resnet50_model (num_classes num_domains : ℕ) : ModelTriple :=
  ([.resnet50 false "avg"],
   [.flatten, .dense num_classes none true],
   [.flatten, .dense num_domains none true])

/-- The `@register_model(...)` decorations, in source order.  `dropout` is the
`FLAGS.dropout` command-line flag read by the timenet / svhn builders. -/
def builtin_models (dropout : ℚ) : List (String × Builder) :=
  [("fcn", make_model_fcn),
   ("inceptiontime", make_model_inceptiontime),
   ("mlp", make_mlp_model),
   ("resnet", make_resnet_model),
   ("timenet", make_timenet_model dropout),
   ("images_dann_mnist", make_dann_mnist_model),
   ("images_dann_svhn", make_dann_svhn_model dropout),
   ("images_dann_gtsrb", make_dann_gtsrb_model),
   ("images_vada_small", make_vada_model_small),
   ("images_vada_large", make_vada_model_large),
   ("images_resnet50", make_resnet50_model)]

/-- Importing models.py runs the eleven `@register_model` decorations in
order, starting from the empty `models` dict. -/
def load_models (dropout : ℚ) : Except String Registry :=
  (builtin_models dropout).foldlM (fun r p => register_model p.1 p.2 r) []

/-! ## analysis.py: Python string helpers -/

/-- The whitespace characters Python `str.strip()` removes. -/
def pyWhitespace (c : Char) : Bool :=
  c == ' ' || c == '\t' || c == '\n' || c == '\x0d' ||
    c == '\x0b' || c == '\x0c'

/-- Python `line.strip()`. -/
def pyStrip (s : String) : String :=
  String.mk (((s.data.dropWhile pyWhitespace).reverse.dropWhile
    pyWhitespace).reverse)

/-- `beginning_match(match, line)` (analysis.py):
`line[:len(match)] == match`. -/
def beginning_match (m line : String) : Bool := line.take m.length == m

/-- Python `s.split(sep)` for a one-character separator: the fields between
the separator occurrences (`"".split(",") == [""]`). -/
def pySplit (sep : Char) : List Char → List (List Char)
  | [] => [[]]
  | c :: cs =>
    match pySplit sep cs with
    | [] => [[]]
    | f :: rest => if c == sep then [] :: f :: rest else (c :: f) :: rest

/-- Python `s.replace(old, new)` for a non-empty `old`: left-to-right,
non-overlapping.  The fuel argument (called with the string's length, an
upper bound on the number of steps, each of which consumes at least one
character) keeps the recursion structural; the fuel-exhausted case is never
reached from `pyReplace`. -/
def pyReplaceFuel (old new : List Char) : ℕ → List Char → List Char
  | _, [] => []
  | 0, cs => cs
  | fuel + 1, c :: cs =>
    if old.isPrefixOf (c :: cs) then
      new ++ pyReplaceFuel old new fuel (cs.drop (old.length - 1))
    else
      c :: pyReplaceFuel old new fuel cs

/-- Python `s.replace(old, new)`, including the empty-pattern case
(`"ab".replace("", "X") == "XaXbX"`). -/
def pyReplace (s old new : List Char) : List Char :=
  if old.isEmpty then
    new ++ s.foldr (fun c acc => c :: (new ++ acc)) []
  else
    pyReplaceFuel old new s.length s

/-! ## analysis.py: the two regular expressions of `smart_split`

A fixed anchored regex made of character classes with `?`-free quantifiers is
matched with the usual greedy backtracking.  The matcher returns, for each
token of the pattern, how many characters it consumed, which determines every
capture group (each group is a contiguous token range). -/

inductive Quant where
  | one
  | star
  | plus

/-- One pattern token: a character class with a quantifier. -/
structure RTok where
  mem : Char → Bool
  q : Quant

/-- Greedy `*` matching: consume as many class characters as possible, then
backtrack until the continuation `k` (the rest of the pattern) matches. -/
def starGreedy (mem : Char → Bool) (k : List Char → Option (List ℕ)) :
    List Char → Option (List ℕ)
  | [] => (k []).map (fun l => 0 :: l)
  | c :: cs =>
    if mem c then
      match starGreedy mem k cs with
      | some (n :: rest) => some ((n + 1) :: rest)
      | _ => (k (c :: cs)).map (fun l => 0 :: l)
    else
      (k (c :: cs)).map (fun l => 0 :: l)

/-- Match an anchored token sequence against the whole character list,
returning the per-token consumption counts of the leftmost (greedy,
backtracking) match. -/
def matchToks : List RTok → List Char → Option (List ℕ)
  | [], cs => if cs.isEmpty then some [] else none
  | t :: ts, cs =>
    match t.q with
    | .one =>
      match cs with
      | [] => none
      | c :: cs2 =>
        if t.mem c then (matchToks ts cs2).map (fun l => 1 :: l) else none
    | .star => starGreedy t.mem (fun r => matchToks ts r) cs
    | .plus =>
      match cs with
      | [] => none
      | c :: cs2 =>
        if t.mem c then
          (starGreedy t.mem (fun r => matchToks ts r) cs2).map
            (fun l => match l with | n :: rest => (n + 1) :: rest | [] => [])
        else none

/-- The first regex of `smart_split`:
`^([^/]+/[^-]*-[^-]*-[^-]*-[^-]*-[^-,]*),(.*)$`.
Group 1 spans tokens 0-10, the comma is token 11, group 2 is token 12. -/
def smart_split_re : List RTok :=
  [⟨fun c => !(c == '/'), .plus⟩,
   ⟨fun c => c == '/', .one⟩,
   ⟨fun c => !(c == '-'), .star⟩,
   ⟨fun c => c == '-', .one⟩,
   ⟨fun c => !(c == '-'), .star⟩,
   ⟨fun c => c == '-', .one⟩,
   ⟨fun c => !(c == '-'), .star⟩,
   ⟨fun c => c == '-', .one⟩,
   ⟨fun c => !(c == '-'), .star⟩,
   ⟨fun c => c == '-', .one⟩,
   ⟨fun c => !(c == '-') && !(c == ','), .star⟩,
   ⟨fun c => c == ',', .one⟩,
   ⟨fun _ => true, .star⟩]

/-- `re.search` of the first pattern: the (filename, rest) capture pair. -/
def reMatchFilenameRest (s : List Char) : Option (List Char × List Char) :=
  match matchToks smart_split_re s with
  | none => none
  | some counts =>
    let g1 := (counts.take 11).sum
    some (s.take g1, s.drop (g1 + 1))

/-- The second regex of `smart_split`:
`^[^/]+/([^-]*)-[^-]*-[^-]*-[^-]*-[^-,]*$`.  Group 1 is token 2. -/
def source_re : List RTok :=
  [⟨fun c => !(c == '/'), .plus⟩,
   ⟨fun c => c == '/', .one⟩,
   ⟨fun c => !(c == '-'), .star⟩,
   ⟨fun c => c == '-', .one⟩,
   ⟨fun c => !(c == '-'), .star⟩,
   ⟨fun c => c == '-', .one⟩,
   ⟨fun c => !(c == '-'), .star⟩,
   ⟨fun c => c == '-', .one⟩,
   ⟨fun c => !(c == '-'), .star⟩,
   ⟨fun c => c == '-', .one⟩,
   ⟨fun c => !(c == '-') && !(c == ','), .star⟩]

/-- `re.search` of the second pattern: the source capture group. -/
def reMatchSource (s : List Char) : Option (List Char) :=
  match matchToks source_re s with
  | none => none
  | some counts =>
    let pre := (counts.take 2).sum
    some ((s.drop pre).take ((counts.get? 2).getD 0))

/-- `smart_split(line)` (analysis.py): if the first regex does not match,
plain `line.split(",")`; otherwise extract filename and source, replace the
source inside the rest, and return `[filename, source] + rest-fields[1:]`.
The `assert m is not None` on the second regex is an `Except.error`. -/
def smart_split (line : String) : Except String (List String) :=
  match reMatchFilenameRest line.data with
  | none => .ok ((pySplit ',' line.data).map String.mk)
  | some (filenameCh, restCh) =>
    let filename := String.mk filenameCh
    match reMatchSource filenameCh with
    | none => .error ("couldn't find source in: " ++ filename)
    | some sourceCh =>
      let source := String.mk sourceCh
      let rest := pyReplace restCh sourceCh "source".data
      .ok ([filename, source] ++ ((pySplit ',' rest).map String.mk).drop 1)

/-! ## analysis.py: Python `int` / `float` conversion

Python `int(s)` / `float(s)` on the strings appearing in the log files:
optional sign and decimal digits, for `float` optionally a fractional part
and an exponent.  Inputs these reject (and exotic accepted forms that have no
rational value, like `nan`/`inf`, or digit-group underscores) yield `none`,
modelling a raised `ValueError`.  Decimal values are represented exactly as
rationals: the binary rounding of IEEE-754 doubles, and their overflow to
infinity at extreme exponents, is not modelled. -/

def digitsToNat (ds : List Char) : ℕ :=
  ds.foldl (fun a c => a * 10 + (c.toNat - '0'.toNat)) 0

def pyInt (s : String) : Option ℤ :=
  let t := (pyStrip s).data
  let signed : ℤ × List Char :=
    match t with
    | '+' :: r => (1, r)
    | '-' :: r => (-1, r)
    | r => (1, r)
  if !signed.2.isEmpty && signed.2.all Char.isDigit then
    some (signed.1 * (digitsToNat signed.2 : ℤ))
  else none

def pyFloat (s : String) : Option ℚ :=
  let t := (pyStrip s).data
  let signed : ℚ × List Char :=
    match t with
    | '+' :: r => (1, r)
    | '-' :: r => (-1, r)
    | r => (1, r)
  let mantExp := signed.2.span (fun c => !(c == 'e' || c == 'E'))
  let expVal : Option ℤ :=
    match mantExp.2 with
    | [] => some 0
    | _ :: r =>
      let se : ℤ × List Char :=
        match r with
        | '+' :: r2 => (1, r2)
        | '-' :: r2 => (-1, r2)
        | r2 => (1, r2)
      if !se.2.isEmpty && se.2.all Char.isDigit then
        some (se.1 * (digitsToNat se.2 : ℤ))
      else none
  let intFrac := mantExp.1.span (fun c => !(c == '.'))
  let fracDigits : Option (List Char) :=
    match intFrac.2 with
    | [] => some []
    | _ :: r => if r.all Char.isDigit then some r else none
  match expVal, fracDigits with
  | some e, some frac =>
    if intFrac.1.all Char.isDigit && !(intFrac.1.isEmpty && frac.isEmpty) then
      some (signed.1 *
        ((digitsToNat intFrac.1 : ℚ) +
          (digitsToNat frac : ℚ) / (10 : ℚ) ^ frac.length) * (10 : ℚ) ^ e)
    else none
  | _, _ => none

/-! ## analysis.py: `parse_file` -/

/-- A row appended to the validation table:
`(values[0..4], int(values[5]), float(values[6]))`. -/
structure ValidationRow where
  logDir : String
  source : String
  target : String
  model : String
  method : String
  bestStep : ℤ
  accAtStep : ℚ
deriving Repr, DecidableEq

/-- A row appended to the train/test table:
`(values[0..4], float(values[5..12]))`. -/
structure TraintestRow where
  logDir : String
  source : String
  target : String
  model : String
  method : String
  trainA : ℚ
  testA : ℚ
  trainB : ℚ
  testB : ℚ
  targetTrainA : ℚ
  targetTestA : ℚ
  targetTrainB : ℚ
  targetTestB : ℚ
deriving Repr, DecidableEq

/-- A row appended to the averages table:
`(values[0], float(values[1]), float(values[2]))`. -/
structure AveragesRow where
  dataset : String
  avg : ℚ
  std : ℚ
deriving Repr, DecidableEq

/-- The three section flags of `parse_file`. -/
structure SectionFlags where
  in_validation : Bool
  in_traintest : Bool
  in_averages : Bool
deriving Repr, DecidableEq

/-- The three accumulating tables of `parse_file`. -/
structure ParseAccum where
  validation : List ValidationRow
  traintest : List TraintestRow
  averages : List AveragesRow
deriving DecidableEq

/-- The observable outcome of `parse_file`: `exit(1)`, a `None` return, the
three tables, or an uncaught Python exception (assertion failure, index out
of range, or unconvertible field; the specific exception type is not
distinguished beyond its message). -/
inductive ParseResult where
  | exitProgram (code : ℕ)
  | noTables
  | tables (validation : List ValidationRow) (traintest : List TraintestRow)
      (averages : List AveragesRow)
  | exn (msg : String)
deriving DecidableEq

def valid_header : String :=
  "Log Dir,Source,Target,Model,Method,Best Step,Accuracy at Step"

def traintest_header : String :=
  "Log Dir,Source,Target,Model,Method,Train A,Test A,Train B,Test B,Target Train A,Target Test A,Target Train B,Target Test B"

def averages_header : String := "Dataset,Avg,Std"

/-- One iteration of `parse_file`'s loop: either the loop continues with new
flags and tables, or the whole call halts (exit / return None / exception). -/
inductive StepResult where
  | halt (r : ParseResult)
  | cont (flags : SectionFlags) (acc : ParseAccum)

/-- Building a validation row from a data line's fields, in the source's
left-to-right evaluation order: `values[0..4]` as strings, `int(values[5])`,
`float(values[6])`; a missing index raises `IndexError`, a failed conversion
`ValueError`. -/
def build_validation_row (values : List String) :
    Except String ValidationRow :=
  match values.get? 0, values.get? 1, values.get? 2, values.get? 3,
      values.get? 4 with
  | some v0, some v1, some v2, some v3, some v4 =>
    match values.get? 5 with
    | none => .error "IndexError"
    | some v5 =>
      match pyInt v5 with
      | none => .error "ValueError"
      | some step =>
        match values.get? 6 with
        | none => .error "IndexError"
        | some v6 =>
          match pyFloat v6 with
          | none => .error "ValueError"
          | some av => .ok ⟨v0, v1, v2, v3, v4, step, av⟩
  | _, _, _, _, _ => .error "IndexError"

/-- Building a train/test row: `values[0..4]` as strings and
`float(values[5..12])`. -/
def build_traintest_row (values : List String) :
    Except String TraintestRow :=
  match values.get? 0, values.get? 1, values.get? 2, values.get? 3,
      values.get? 4, values.get? 5, values.get? 6, values.get? 7,
      values.get? 8, values.get? 9, values.get? 10, values.get? 11,
      values.get? 12 with
  | some v0, some v1, some v2, some v3, some v4, some v5, some v6, some v7,
      some v8, some v9, some v10, some v11, some v12 =>
    match pyFloat v5, pyFloat v6, pyFloat v7, pyFloat v8, pyFloat v9,
        pyFloat v10, pyFloat v11, pyFloat v12 with
    | some f5, some f6, some f7, some f8, some f9, some f10, some f11,
        some f12 =>
      .ok ⟨v0, v1, v2, v3, v4, f5, f6, f7, f8, f9, f10, f11, f12⟩
    | _, _, _, _, _, _, _, _ => .error "ValueError"
  | _, _, _, _, _, _, _, _, _, _, _, _, _ => .error "IndexError"

/-- Building an averages row: `values[0]`, `float(values[1])`,
`float(values[2])`. -/
def build_averages_row (values : List String) :
    Except String AveragesRow :=
  match values.get? 0, values.get? 1, values.get? 2 with
  | some v0, some v1, some v2 =>
    match pyFloat v1, pyFloat v2 with
    | some f1, some f2 => .ok ⟨v0, f1, f2⟩
    | _, _ => .error "ValueError"
  | _, _, _ => .error "IndexError"

/-- Processing a stripped non-empty non-header data line: split it, return
None on "No data.", and in a section check/parse the row the source builds
there ("None" as the validation Best Step returns None). -/
def parse_data_line (flags : SectionFlags) (acc : ParseAccum)
    (line : String) : StepResult :=
  match smart_split line with
  | .error msg => .halt (.exn msg)
  | .ok values =>
    match values.get? 0 with
    | none => .halt (.exn "IndexError")
    | some v0 =>
      if v0 == "No data." then .halt .noTables
      else if flags.in_validation then
        match values.get? 5 with
        | none => .halt (.exn "IndexError")
        | some v5 =>
          if v5 == "None" then .halt .noTables
          else
            match build_validation_row values with
            | .error msg => .halt (.exn msg)
            | .ok row =>
              .cont flags
                { acc with validation := acc.validation ++ [row] }
      else if flags.in_traintest then
        match build_traintest_row values with
        | .error msg => .halt (.exn msg)
        | .ok row =>
          .cont flags { acc with traintest := acc.traintest ++ [row] }
      else if flags.in_averages then
        match build_averages_row values with
        | .error msg => .halt (.exn msg)
        | .ok row =>
          .cont flags { acc with averages := acc.averages ++ [row] }
      else
        .cont flags acc

/-- The body of `parse_file`'s `for line in f` loop, one line. -/
def parse_line (flags : SectionFlags) (acc : ParseAccum) (rawLine : String) :
    StepResult :=
  let line := pyStrip rawLine
  if line == "Virtual devices must be set at program startup" then
    .cont flags acc
  else if line == "Error occured -- exiting" then
    .halt (.exitProgram 1)
  else if beginning_match valid_header line then
    .cont ⟨true, false, false⟩ acc
  else if beginning_match traintest_header line then
    .cont ⟨false, true, false⟩ acc
  else if beginning_match averages_header line then
    .cont ⟨false, false, true⟩ acc
  else if line.length > 0 then
    parse_data_line flags acc line
  else
    .cont ⟨false, false, false⟩ acc

/-- The loop of `parse_file` over the file's lines. -/
def parse_lines (flags : SectionFlags) (acc : ParseAccum) :
    List String → ParseResult
  | [] => .tables acc.validation acc.traintest acc.averages
  | line :: rest =>
    match parse_line flags acc line with
    | .halt r => r
    | .cont flags2 acc2 => parse_lines flags2 acc2 rest

/-- `parse_file` (analysis.py), on the file's list of lines. -/
def parse_file (lines : List String) : ParseResult :=
  parse_lines ⟨false, false, false⟩ ⟨[], [], []⟩ lines

/-! ## analysis.py: `compute_mean_std` and the method-name table -/

/-- `df[name].mean()`: the arithmetic mean of the column. -/
def pdMean (xs : List ℚ) : ℚ := xs.sum / xs.length

/-- The square of `df[name].std(ddof)`: the sum of squared deviations from
the mean divided by `n - ddof`.  The square root reported by Pandas is
irrational in general, so the variance is what the embedding tracks. -/
def pdVar (ddof : ℕ) (xs : List ℚ) : ℚ :=
  (xs.map (fun x => (x - pdMean xs) ^ 2)).sum / ((xs.length : ℚ) - ddof)

/-- `compute_mean_std(df, name, filename)` (analysis.py): possibly warn on
stderr about the number of runs, then return
`(data.mean(), data.std(ddof=0))` — the std squared here, see `pdVar`. -/
def compute_mean_std (xs : List ℚ) (filename : String) :
    List String × (ℚ × ℚ) :=
  let length := xs.length
  let warnings :=
    if length != 1 && length != 3 && length != 5 then
      ["Warning: number of runs " ++ toString length ++
        " (not 3 or 5) for " ++ filename]
    else []
  (warnings, (pdMean xs, pdVar 0 xs))

/-- The module-level `nice_method_names` dict of analysis.py, in source
order (entries commented out in the source are omitted, as Python does). -/
def nice_method_names : List (String × String) :=
  [("none", "No Adaptation"),
   ("upper", "Train on Only Target"),
   ("dann_grl", "CoDATS + DANN-GRL (MS-DA)"),
   ("dann_grl_dg", "CoDATS + DANN-GRL (DG)"),
   ("sleep_dg", "CoDATS + Sleep Method (DG)"),
   ("dann_shu", "CoDATS + DANN-Shu"),
   ("cyclegan", "CoDATS + CycleGAN"),
   ("cyclegan_dann", "CoDATS + CycleGAN + DANN"),
   ("cycada", "CoDATS + CyCADA"),
   ("deepjdot", "CoDATS + DeepJDOT"),
   ("rdann", "R-DANN"),
   ("vrada", "VRADA"),
   ("random", "Many Reinit")]

/-! ## The CycleGAN-style domain-mapping model -/

/-- Elementwise difference of two tensors. -/
def subT (a b : Tensor) : Tensor := List.zipWith (· - ·) a b

/-- The L1 norm of a tensor, the reconstruction penalty CycleGAN uses. -/
def l1Norm (t : Tensor) : ℚ := (t.map (fun v => |v|)).sum

/-- Modelled from the spec: the CycleGAN-style domain-mapping model.  Its
implementation is part of the repository's method/training code, which is not
under src/; under src/ only analysis.py refers to it, through the method
names "cyclegan", "cyclegan_dann" and "cycada" in `nice_method_names`.  Per
the spec glossary, it is an unpaired translation model "with two generators
and two discriminators plus a cycle-consistency objective": a generator and a
discriminator per domain. -/
structure CycleGAN where
  generator_AtoB : Tensor → Tensor
  generator_BtoA : Tensor → Tensor
  discriminator_A : Tensor → Tensor
  discriminator_B : Tensor → Tensor

/-- The generators of the domain-mapping model, one per direction. -/
def CycleGAN.generators (m : CycleGAN) : List (Tensor → Tensor) :=
  [m.generator_AtoB, m.generator_BtoA]

/-- The discriminators of the domain-mapping model, one per domain. -/
def CycleGAN.discriminators (m : CycleGAN) : List (Tensor → Tensor) :=
  [m.discriminator_A, m.discriminator_B]

/-- Modelled from the spec: the cycle-consistency objective, the L1
reconstruction error of mapping a sample to the other domain and back, in
both directions. -/
def CycleGAN.cycle_consistency_loss (m : CycleGAN) (x y : Tensor) : ℚ :=
  l1Norm (subT (m.generator_BtoA (m.generator_AtoB x)) x) +
    l1Norm (subT (m.generator_AtoB (m.generator_BtoA y)) y)

/-! ## The claim-side description of `parse_file`

The claims describe `parse_file` as collecting, per section, the non-empty
non-header data lines with their numeric fields parsed.  `specScan` states
that description directly: instead of the source's three Boolean flags it
keeps the single current section (an `Option LogSection`), and instead of
threading accumulator tables through a loop it returns each section's rows
directly, `none` standing for any aborted parse. -/

inductive LogSection where
  | validation
  | traintest
  | averages
deriving Repr, DecidableEq

/-- A validation-section data line, as the claim reads it: the five name
fields, the Best Step field parsed as an integer, and the accuracy field
parsed as a number. -/
def specRow_validation (values : List String) : Option ValidationRow :=
  match values.get? 0, values.get? 1, values.get? 2, values.get? 3,
      values.get? 4, values.get? 5, values.get? 6 with
  | some v0, some v1, some v2, some v3, some v4, some v5, some v6 =>
    match pyInt v5, pyFloat v6 with
    | some step, some av => some ⟨v0, v1, v2, v3, v4, step, av⟩
    | _, _ => none
  | _, _, _, _, _, _, _ => none

/-- A train/test-section data line: five name fields and eight accuracy
fields parsed as numbers. -/
def specRow_traintest (values : List String) : Option TraintestRow :=
  match values.get? 0, values.get? 1, values.get? 2, values.get? 3,
      values.get? 4, values.get? 5, values.get? 6, values.get? 7,
      values.get? 8, values.get? 9, values.get? 10, values.get? 11,
      values.get? 12 with
  | some v0, some v1, some v2, some v3, some v4, some v5, some v6, some v7,
      some v8, some v9, some v10, some v11, some v12 =>
    match pyFloat v5, pyFloat v6, pyFloat v7, pyFloat v8, pyFloat v9,
        pyFloat v10, pyFloat v11, pyFloat v12 with
    | some f5, some f6, some f7, some f8, some f9, some f10, some f11,
        some f12 =>
      some ⟨v0, v1, v2, v3, v4, f5, f6, f7, f8, f9, f10, f11, f12⟩
    | _, _, _, _, _, _, _, _ => none
  | _, _, _, _, _, _, _, _, _, _, _, _, _ => none

/-- An averages-section data line: the dataset name and two numbers. -/
def specRow_averages (values : List String) : Option AveragesRow :=
  match values.get? 0, values.get? 1, values.get? 2 with
  | some v0, some v1, some v2 =>
    match pyFloat v1, pyFloat v2 with
    | some f1, some f2 => some ⟨v0, f1, f2⟩
    | _, _ => none
  | _, _, _ => none

/-- The claim-side scan: one current section, headers switch it, an empty
line leaves it, each section's rows are its data lines parsed; `none` when
the parse is aborted (error line, "No data.", a Best Step of "None", or a
malformed data line). -/
def specScan : Option LogSection → List String →
    Option (List ValidationRow × List TraintestRow × List AveragesRow)
  | _, [] => some ([], [], [])
  | sec, line :: rest =>
    let l := pyStrip line
    if l == "Virtual devices must be set at program startup" then
      specScan sec rest
    else if l == "Error occured -- exiting" then none
    else if beginning_match valid_header l then
      specScan (some .validation) rest
    else if beginning_match traintest_header l then
      specScan (some .traintest) rest
    else if beginning_match averages_header l then
      specScan (some .averages) rest
    else if l.length > 0 then
      match smart_split l with
      | .error _ => none
      | .ok values =>
        if values.get? 0 == some "No data." then none
        else
          match sec with
          | some .validation =>
            if values.get? 5 == some "None" then none
            else
              match specRow_validation values with
              | none => none
              | some row =>
                (specScan sec rest).map (fun p => (row :: p.1, p.2.1, p.2.2))
          | some .traintest =>
            match specRow_traintest values with
            | none => none
            | some row =>
              (specScan sec rest).map (fun p => (p.1, row :: p.2.1, p.2.2))
          | some .averages =>
            match specRow_averages values with
            | none => none
            | some row =>
              (specScan sec rest).map (fun p => (p.1, p.2.1, row :: p.2.2))
          | none => specScan sec rest
    else
      specScan none rest

/-- The single-section view of the source's three Boolean flags, read in the
order the source tests them. -/
def toSec (f : SectionFlags) : Option LogSection :=
  if f.in_validation then some .validation
  else if f.in_traintest then some .traintest
  else if f.in_averages then some .averages
  else none

lemma mulT_onesLike (a b : Tensor) (h : a.length = b.length) :
    mulT a (onesLike b) = a := by
  induction a generalizing b with
  | nil => simp [mulT]
  | cons x xs ih =>
    cases b with
    | nil => simp at h
    | cons y ys =>
      simp only [mulT, onesLike, List.map_cons, List.zipWith_cons_cons,
        mul_one, List.cons.injEq, true_and]
      exact ih ys (by simpa using h)

lemma scaleT_negT (c : ℚ) (t : Tensor) :
    scaleT c (negT t) = t.map (fun v => -v * c) := by
  simp only [scaleT, negT, List.map_map]
  congr 1
  funext v
  simp [mul_comm]

lemma scaleT_neg_comm (c : ℚ) (t : Tensor) :
    scaleT c (negT t) = scaleT (-c) t := by
  simp only [scaleT, negT, List.map_map]
  congr 1
  funext v
  simp only [Function.comp_apply]
  ring

lemma length_scaleT (c : ℚ) (t : Tensor) : (scaleT c t).length = t.length := by
  simp [scaleT]

lemma length_negT (t : Tensor) : (negT t).length = t.length := by
  simp [negT]

lemma foldl_append_map_eq_join {α β : Type} (f : α → List β) :
    ∀ (l : List α) (init : List β),
      l.foldl (fun acc x => acc ++ f x) init = init ++ (l.map f).flatten := by
  intro l
  induction l with
  | nil => intro init; simp
  | cons x xs ih => intro init; simp [List.foldl_cons, ih]

lemma l1Norm_nonneg (t : Tensor) : 0 ≤ l1Norm t := by
  refine List.sum_nonneg ?_
  intro a ha
  simp only [l1Norm, List.mem_map] at ha
  obtain ⟨v, _, rfl⟩ := ha
  exact abs_nonneg v

lemma l1Norm_subT_self (t : Tensor) : l1Norm (subT t t) = 0 := by
  induction t with
  | nil => rfl
  | cons x xs ih => simp_all [l1Norm, subT]

/-- At most one of the three section flags is set. -/
def atMostOneSection (f : SectionFlags) : Prop :=
  f.in_validation.toNat + f.in_traintest.toNat + f.in_averages.toNat ≤ 1

/-- Everything a continuing data-line iteration can do: keep the flags, and
append one row to the table of the current section (or none outside any
section). -/
lemma parse_data_line_cont_cases
    {flags : SectionFlags} {acc : ParseAccum} {line : String}
    {flags2 : SectionFlags} {acc2 : ParseAccum}
    (h : parse_data_line flags acc line = .cont flags2 acc2) :
    flags2 = flags ∧
    (acc2 = acc ∨
      (∃ r, acc2 = { acc with validation := acc.validation ++ [r] }) ∨
      (∃ r, acc2 = { acc with traintest := acc.traintest ++ [r] }) ∨
      (∃ r, acc2 = { acc with averages := acc.averages ++ [r] })) := by
  unfold parse_data_line at h
  repeat' split at h
  all_goals cases h
  · exact ⟨rfl, Or.inr (Or.inl ⟨_, rfl⟩)⟩
  · exact ⟨rfl, Or.inr (Or.inr (Or.inl ⟨_, rfl⟩))⟩
  · exact ⟨rfl, Or.inr (Or.inr (Or.inr ⟨_, rfl⟩))⟩
  · exact ⟨rfl, Or.inl rfl⟩

/-- Everything a continuing iteration of `parse_file`'s loop can do to the
state: leave it alone, enter one section (or none, on an empty line), or
append one row to the table of the current section. -/
lemma parse_line_cont_cases
    {flags : SectionFlags} {acc : ParseAccum} {line : String}
    {flags2 : SectionFlags} {acc2 : ParseAccum}
    (h : parse_line flags acc line = .cont flags2 acc2) :
    (flags2 = flags ∧ acc2 = acc) ∨
    (flags2 = ⟨true, false, false⟩ ∧ acc2 = acc) ∨
    (flags2 = ⟨false, true, false⟩ ∧ acc2 = acc) ∨
    (flags2 = ⟨false, false, true⟩ ∧ acc2 = acc) ∨
    (flags2 = ⟨false, false, false⟩ ∧ acc2 = acc) ∨
    (flags2 = flags ∧ ∃ r, acc2 =
      { acc with validation := acc.validation ++ [r] }) ∨
    (flags2 = flags ∧ ∃ r, acc2 =
      { acc with traintest := acc.traintest ++ [r] }) ∨
    (flags2 = flags ∧ ∃ r, acc2 =
      { acc with averages := acc.averages ++ [r] }) := by
  unfold parse_line at h
  dsimp only at h
  split at h
  · cases h; exact Or.inl ⟨rfl, rfl⟩
  split at h
  · cases h
  split at h
  · cases h; exact Or.inr (Or.inl ⟨rfl, rfl⟩)
  split at h
  · cases h; exact Or.inr (Or.inr (Or.inl ⟨rfl, rfl⟩))
  split at h
  · cases h; exact Or.inr (Or.inr (Or.inr (Or.inl ⟨rfl, rfl⟩)))
  split at h
  · obtain ⟨hf, hacc⟩ := parse_data_line_cont_cases h
    subst hf
    rcases hacc with h1 | ⟨r, h1⟩ | ⟨r, h1⟩ | ⟨r, h1⟩
    · exact Or.inl ⟨rfl, h1⟩
    · exact Or.inr (Or.inr (Or.inr (Or.inr (Or.inr (Or.inl ⟨rfl, r, h1⟩)))))
    · exact Or.inr (Or.inr (Or.inr (Or.inr (Or.inr (Or.inr (Or.inl
        ⟨rfl, r, h1⟩))))))
    · exact Or.inr (Or.inr (Or.inr (Or.inr (Or.inr (Or.inr (Or.inr
        ⟨rfl, r, h1⟩))))))
  · cases h; exact Or.inr (Or.inr (Or.inr (Or.inr (Or.inl ⟨rfl, rfl⟩))))

/-- A successful source-side validation row is the claim-side row. -/
lemma build_validation_row_spec {values : List String} {row : ValidationRow}
    (h : build_validation_row values = .ok row) :
    specRow_validation values = some row := by
  unfold build_validation_row at h
  repeat' split at h
  all_goals cases h
  unfold specRow_validation
  simp_all

/-- A successful source-side train/test row is the claim-side row. -/
lemma build_traintest_row_spec {values : List String} {row : TraintestRow}
    (h : build_traintest_row values = .ok row) :
    specRow_traintest values = some row := by
  unfold build_traintest_row at h
  repeat' split at h
  all_goals cases h
  unfold specRow_traintest
  simp_all

/-- A successful source-side averages row is the claim-side row. -/
lemma build_averages_row_spec {values : List String} {row : AveragesRow}
    (h : build_averages_row values = .ok row) :
    specRow_averages values = some row := by
  unfold build_averages_row at h
  repeat' split at h
  all_goals cases h
  unfold specRow_averages
  simp_all

lemma some_beq_some (a b : String) : (some a == some b) = (a == b) := rfl

lemma specmap_nil
    (o : Option (List ValidationRow × List TraintestRow × List AveragesRow)) :
    o.map (fun p => (([] : List ValidationRow) ++ p.1,
      ([] : List TraintestRow) ++ p.2.1,
      ([] : List AveragesRow) ++ p.2.2)) = o := by
  cases o <;> simp

/-- One continuing loop iteration of `parse_file` corresponds to one step of
the claim-side scan: the tables grow by the deltas the claim-side step
prepends. -/
lemma parse_line_cont_spec
    {flags : SectionFlags} {acc : ParseAccum} {line : String}
    {flags2 : SectionFlags} {acc2 : ParseAccum}
    (h : parse_line flags acc line = .cont flags2 acc2) (rest : List String) :
    ∃ (dv : List ValidationRow) (dt : List TraintestRow)
      (da : List AveragesRow),
      acc2.validation = acc.validation ++ dv ∧
      acc2.traintest = acc.traintest ++ dt ∧
      acc2.averages = acc.averages ++ da ∧
      specScan (toSec flags) (line :: rest) =
        (specScan (toSec flags2) rest).map
          (fun p => (dv ++ p.1, dt ++ p.2.1, da ++ p.2.2)) := by
  unfold parse_line at h
  dsimp only at h
  by_cases h1 :
      (pyStrip line == "Virtual devices must be set at program startup") = true
  · rw [if_pos h1] at h
    cases h
    refine ⟨[], [], [], by simp, by simp, by simp, ?_⟩
    rw [specScan]
    rw [if_pos h1, specmap_nil]
  rw [if_neg h1] at h
  by_cases h2 : (pyStrip line == "Error occured -- exiting") = true
  · rw [if_pos h2] at h
    cases h
  rw [if_neg h2] at h
  by_cases h3 : beginning_match valid_header (pyStrip line) = true
  · rw [if_pos h3] at h
    cases h
    refine ⟨[], [], [], by simp, by simp, by simp, ?_⟩
    rw [specScan]
    rw [if_neg h1, if_neg h2, if_pos h3, specmap_nil]
    rfl
  rw [if_neg h3] at h
  by_cases h4 : beginning_match traintest_header (pyStrip line) = true
  · rw [if_pos h4] at h
    cases h
    refine ⟨[], [], [], by simp, by simp, by simp, ?_⟩
    rw [specScan]
    rw [if_neg h1, if_neg h2, if_neg h3, if_pos h4, specmap_nil]
    rfl
  rw [if_neg h4] at h
  by_cases h5 : beginning_match averages_header (pyStrip line) = true
  · rw [if_pos h5] at h
    cases h
    refine ⟨[], [], [], by simp, by simp, by simp, ?_⟩
    rw [specScan]
    rw [if_neg h1, if_neg h2, if_neg h3, if_neg h4, if_pos h5, specmap_nil]
    rfl
  rw [if_neg h5] at h
  by_cases h6 : (pyStrip line).length > 0
  case neg =>
    rw [if_neg h6] at h
    cases h
    refine ⟨[], [], [], by simp, by simp, by simp, ?_⟩
    rw [specScan]
    rw [if_neg h1, if_neg h2, if_neg h3, if_neg h4, if_neg h5, if_neg h6,
      specmap_nil]
    rfl
  rw [if_pos h6] at h
  rw [specScan]
  rw [if_neg h1, if_neg h2, if_neg h3, if_neg h4, if_neg h5, if_pos h6]
  unfold parse_data_line at h
  cases hss : smart_split (pyStrip line) with
  | error msg =>
    rw [hss] at h
    dsimp only at h
    cases h
  | ok values =>
    rw [hss] at h
    dsimp only at h
    dsimp only
    cases hv0 : values.get? 0 with
    | none =>
      rw [hv0] at h
      dsimp only at h
      cases h
    | some v0 =>
      rw [hv0] at h
      dsimp only at h
      rw [some_beq_some]
      by_cases hnd : (v0 == "No data.") = true
      · rw [if_pos hnd] at h
        cases h
      rw [if_neg hnd] at h
      rw [if_neg hnd]
      by_cases hval : flags.in_validation = true
      · rw [if_pos hval] at h
        have hsec : toSec flags = some .validation := by
          simp [toSec, hval]
        rw [hsec]
        dsimp only
        cases hv5 : values.get? 5 with
        | none =>
          rw [hv5] at h
          dsimp only at h
          cases h
        | some v5 =>
          rw [hv5] at h
          dsimp only at h
          rw [some_beq_some]
          by_cases hnone : (v5 == "None") = true
          · rw [if_pos hnone] at h
            cases h
          rw [if_neg hnone] at h
          rw [if_neg hnone]
          cases hrow : build_validation_row values with
          | error msg =>
            rw [hrow] at h
            dsimp only at h
            cases h
          | ok row =>
            rw [hrow] at h
            dsimp only at h
            cases h
            rw [build_validation_row_spec hrow]
            exact ⟨[row], [], [], by simp, by simp, by simp, by simp [hsec]⟩
      rw [if_neg hval] at h
      by_cases htt : flags.in_traintest = true
      · rw [if_pos htt] at h
        have hsec : toSec flags = some .traintest := by
          simp [toSec, htt, hval]
        rw [hsec]
        dsimp only
        cases hrow : build_traintest_row values with
        | error msg =>
          rw [hrow] at h
          dsimp only at h
          cases h
        | ok row =>
          rw [hrow] at h
          dsimp only at h
          cases h
          rw [build_traintest_row_spec hrow]
          exact ⟨[], [row], [], by simp, by simp, by simp, by simp [hsec]⟩
      rw [if_neg htt] at h
      by_cases hav : flags.in_averages = true
      · rw [if_pos hav] at h
        have hsec : toSec flags = some .averages := by
          simp [toSec, hav, hval, htt]
        rw [hsec]
        dsimp only
        cases hrow : build_averages_row values with
        | error msg =>
          rw [hrow] at h
          dsimp only at h
          cases h
        | ok row =>
          rw [hrow] at h
          dsimp only at h
          cases h
          rw [build_averages_row_spec hrow]
          exact ⟨[], [], [row], by simp, by simp, by simp, by simp [hsec]⟩
      rw [if_neg hav] at h
      cases h
      have hsec : toSec flags = none := by
        simp [toSec, hval, htt, hav]
      rw [hsec]
      exact ⟨[], [], [], by simp, by simp, by simp, (specmap_nil _).symm⟩

/-- A data line can only halt the loop with a `None` return or an
exception. -/
lemma parse_data_line_halt_cases
    {flags : SectionFlags} {acc : ParseAccum} {line : String}
    {r : ParseResult} (h : parse_data_line flags acc line = .halt r) :
    r = .noTables ∨ ∃ msg, r = .exn msg := by
  unfold parse_data_line at h
  repeat' split at h
  all_goals cases h
  all_goals first
    | exact Or.inl rfl
    | exact Or.inr ⟨_, rfl⟩

/-- A line can only halt the loop by exiting the program, returning `None`,
or raising; it never halts with tables. -/
lemma parse_line_halt_cases
    {flags : SectionFlags} {acc : ParseAccum} {line : String}
    {r : ParseResult} (h : parse_line flags acc line = .halt r) :
    r = .exitProgram 1 ∨ r = .noTables ∨ ∃ msg, r = .exn msg := by
  unfold parse_line at h
  dsimp only at h
  split at h
  · cases h
  split at h
  · cases h
    exact Or.inl rfl
  split at h
  · cases h
  split at h
  · cases h
  split at h
  · cases h
  split at h
  · rcases parse_data_line_halt_cases h with h1 | ⟨msg, h1⟩
    · exact Or.inr (Or.inl h1)
    · exact Or.inr (Or.inr ⟨msg, h1⟩)
  · cases h

/-- When the loop of `parse_file` ends in tables, the tables extend the
accumulators by exactly the rows the claim-side scan collects. -/
lemma parse_lines_tables_spec :
    ∀ (lines : List String) (flags : SectionFlags) (acc : ParseAccum)
      (v : List ValidationRow) (t : List TraintestRow)
      (a : List AveragesRow),
      parse_lines flags acc lines = .tables v t a →
      ∃ dv dt da, specScan (toSec flags) lines = some (dv, dt, da) ∧
        v = acc.validation ++ dv ∧ t = acc.traintest ++ dt ∧
        a = acc.averages ++ da := by
  intro lines
  induction lines with
  | nil =>
    intro flags acc v t a h
    unfold parse_lines at h
    cases h
    exact ⟨[], [], [], rfl, by simp, by simp, by simp⟩
  | cons line rest ih =>
    intro flags acc v t a h
    unfold parse_lines at h
    cases hstep : parse_line flags acc line with
    | halt r =>
      rw [hstep] at h
      dsimp only at h
      subst h
      rcases parse_line_halt_cases hstep with h1 | h1 | ⟨msg, h1⟩ <;>
        cases h1
    | cont flags2 acc2 =>
      rw [hstep] at h
      dsimp only at h
      obtain ⟨dv0, dt0, da0, hsp, hv, ht, ha⟩ := ih flags2 acc2 v t a h
      obtain ⟨dv, dt, da, hav, hat, haa, hscan⟩ :=
        parse_line_cont_spec hstep rest
      refine ⟨dv ++ dv0, dt ++ dt0, da ++ da0, ?_, ?_, ?_, ?_⟩
      · rw [hscan, hsp]
        rfl
      · rw [hv, hav, List.append_assoc]
      · rw [ht, hat, List.append_assoc]
      · rw [ha, haa, List.append_assoc]

/-! ## Theorems settling the claims -/

/-- C1: for every input tensor `x` and scalar `grl_lambda`, the forward pass
of `flip_gradient x grl_lambda` returns `x` unchanged, and its backward pass
maps an incoming gradient `dy` (of the shape of `x`) to
`-dy * grl_lambda` elementwise, with gradient `0` for the `grl_lambda`
argument. -/
theorem C1_flip_gradient_identity_and_reversal :
    ∀ (x : Tensor) (grl_lambda : ℚ),
      (flip_gradient x grl_lambda).1 = x ∧
      ∀ dy : Tensor, dy.length = x.length →
        ((flip_gradient x grl_lambda).2 dy).1 =
          dy.map (fun d => -d * grl_lambda) ∧
        ((flip_gradient x grl_lambda).2 dy).2 = 0 := by
  intro x lam
  refine ⟨rfl, ?_⟩
  intro dy h
  constructor
  · show mulT (scaleT lam (negT dy)) (onesLike x) = _
    rw [mulT_onesLike _ _ (by simp [length_scaleT, length_negT, h]),
      scaleT_negT]
  · rfl

/-- Witness for C1 at `x = [5, 6, 7]`, `grl_lambda = 2`, `dy = [1, 2, 3]`. -/
theorem C1_flip_gradient_witness :
    (flip_gradient [5, 6, 7] 2).1 = [5, 6, 7] ∧
    ((flip_gradient [5, 6, 7] 2).2 [1, 2, 3]).1 = [-2, -4, -6] ∧
    ((flip_gradient [5, 6, 7] 2).2 [1, 2, 3]).2 = 0 := by
  obtain ⟨h1, h2⟩ := C1_flip_gradient_identity_and_reversal [5, 6, 7] 2
  obtain ⟨h3, h4⟩ := h2 [1, 2, 3] (by decide)
  refine ⟨h1, ?_, h4⟩
  rw [h3]
  norm_num

/-- C4: `ModelBase.call` computes the latent representation
`fe = feature_extractor(inputs)` and passes that same `fe` to both the task
classifier and the domain classifier, returning
(task output, domain output, fe). -/
theorem C4_ModelBase_call_shares_fe :
    ∀ (m : ModelParts) (inputs : Tensor),
      ModelBase.call m inputs =
        (m.task_classifier.fwd (m.feature_extractor.fwd inputs),
         m.domain_classifier.fwd (m.feature_extractor.fwd inputs),
         m.feature_extractor.fwd inputs) := by
  intro m inputs
  rfl

/-- C2: in every DANN-variant model, the domain classifier receives the
feature-extractor output only through `flip_gradient`, called with the lambda
the GRL schedule yields at the current global step — for the base
`DannModelBase.call_domain_classifier` (shared by `DannModel`, `VradaModel`
and `RDannModel`), for `HeterogeneousDannModel`, for `SleepModel`
(concatenated with the stop-gradiented task output), and for
`DannSmoothModel` (the selected domain classifier).  On the backward pass
the cotangent reaching the raw feature-extractor output is the domain
classifier's pullback negated and scaled by that lambda, not the raw
pullback. -/
theorem C2_domain_classifier_via_grl :
    ∀ (fe task dy : Tensor),
      (∀ (m : DannModel) (x : Tensor),
        (DannModel.call m x).2.1 =
          m.domain_classifier.fwd
            ((flip_gradient (m.feature_extractor.fwd x)
              (m.flip_gradient.grl_schedule m.flip_gradient.global_step)).1)) ∧
      (∀ m : DannModel,
        DannModelBase.call_domain_classifier m fe task =
          m.domain_classifier.fwd
            ((flip_gradient fe
              (m.flip_gradient.grl_schedule m.flip_gradient.global_step)).1)) ∧
      (∀ m : DannModel,
        (m.domain_classifier.bwd fe dy).length = fe.length →
        DannModelBase.domain_vjp m fe dy =
          scaleT (-(m.flip_gradient.grl_schedule m.flip_gradient.global_step))
            (m.domain_classifier.bwd fe dy)) ∧
      (∀ (h : HeterogeneousDannModel) (which_fe : Option ℕ),
        HeterogeneousDannModel.call_domain_classifier h fe task which_fe =
          h.domain_classifier.fwd
            ((flip_gradient fe
              (h.flip_gradient.grl_schedule h.flip_gradient.global_step)).1)) ∧
      (∀ s : SleepModel,
        SleepModel.call_domain_classifier s fe task =
          s.domain_classifier.fwd
            (((flip_gradient fe
              (s.flip_gradient.grl_schedule s.flip_gradient.global_step)).1)
              ++ StopGradient.call task)) ∧
      (∀ (sm : DannSmoothModel) (i : ℕ) (dc : KLayer),
        sm.domain_classifier.get? i = some dc →
        DannSmoothModel.call_domain_classifier sm fe task (some i) =
          .ok (dc.fwd
            ((flip_gradient fe
              (sm.flip_gradient.grl_schedule sm.flip_gradient.global_step)).1))) := by
  intro fe task dy
  refine ⟨fun m x => rfl, fun m => rfl, ?_, fun h wf => rfl, fun s => rfl, ?_⟩
  · intro m hlen
    unfold DannModelBase.domain_vjp FlipGradient.call flip_gradient
    simp only
    rw [mulT_onesLike _ _ (by simp [length_scaleT, length_negT, hlen]),
      scaleT_neg_comm]
  · intro sm i dc hdc
    simp only [DannSmoothModel.call_domain_classifier]
    rw [hdc]
    rfl

/-- Witness for C2: a concrete one-variable model with identity layers at
`fe = [1, 2]`, `dy = [1, 2]`, schedule step 3 ↦ lambda 3, and a
one-classifier smooth model. -/
theorem C2_domain_classifier_witness :
    DannModelBase.domain_vjp
      ⟨⟨⟨[0], id, fun _ dy => dy⟩, ⟨[1], id, fun _ dy => dy⟩,
        ⟨[2], id, fun _ dy => dy⟩⟩, ⟨3, fun n => (n : ℚ)⟩⟩ [1, 2] [1, 2] =
      [-3, -6] ∧
    DannSmoothModel.call_domain_classifier
      ⟨⟨[0], id, fun _ dy => dy⟩, ⟨[1], id, fun _ dy => dy⟩,
        [⟨[2], id, fun _ dy => dy⟩], ⟨3, fun n => (n : ℚ)⟩⟩
      [1, 2] [9] (some 0) = .ok [1, 2] := by
  obtain ⟨-, -, h3, -, -, h6⟩ :=
    C2_domain_classifier_via_grl [1, 2] [9] [1, 2]
  constructor
  · rw [h3 ⟨⟨⟨[0], id, fun _ dy => dy⟩, ⟨[1], id, fun _ dy => dy⟩,
      ⟨[2], id, fun _ dy => dy⟩⟩, ⟨3, fun n => (n : ℚ)⟩⟩ rfl]
    norm_num [scaleT]
  · exact h6 ⟨⟨[0], id, fun _ dy => dy⟩, ⟨[1], id, fun _ dy => dy⟩,
      [⟨[2], id, fun _ dy => dy⟩], ⟨3, fun n => (n : ℚ)⟩⟩ 0
      ⟨[2], id, fun _ dy => dy⟩ rfl

/-- C3: `get_model` on a registered name returns exactly the registered
builder applied to the arguments; on an unregistered name it fails with the
assertion message; `register_model` on an already-registered name fails with
the duplicate assertion; importing models.py registers all eleven built-in
builders (each returning a feature-extractor / task-classifier /
domain-classifier triple), e.g. `"fcn" ↦ make_model_fcn`. -/
theorem C3_registry_behavior :
    (∀ (r : Registry) (name : String) (b : Builder) (nc nd : ℕ),
        r.lookup name = some b →
        get_model r name nc nd = .ok (b nc nd)) ∧
    (∀ (r : Registry) (name : String) (nc nd : ℕ),
        r.lookup name = none →
        get_model r name nc nd = .error ("Unknown model name " ++ name)) ∧
    (∀ (r : Registry) (name : String) (b2 : Builder),
        (r.lookup name).isSome →
        register_model name b2 r =
          .error ("duplicate model named " ++ name)) ∧
    (∀ dropout : ℚ, load_models dropout = .ok (builtin_models dropout)) ∧
    (∀ dropout : ℚ, list_models (builtin_models dropout) =
      ["fcn", "inceptiontime", "mlp", "resnet", "timenet",
       "images_dann_mnist", "images_dann_svhn", "images_dann_gtsrb",
       "images_vada_small", "images_vada_large", "images_resnet50"]) ∧
    (∀ (dropout : ℚ) (nc nd : ℕ),
      get_model (builtin_models dropout) "fcn" nc nd =
        .ok (make_model_fcn nc nd)) := by
  refine ⟨?_, ?_, ?_, fun dropout => rfl, fun dropout => rfl,
    fun dropout nc nd => rfl⟩
  · intro r name b nc nd h
    simp [get_model, h]
  · intro r name nc nd h
    simp [get_model, h]
  · intro r name b2 h
    simp [register_model, h]

/-- Witness for C3: the singleton registry containing only "fcn". -/
theorem C3_registry_witness :
    get_model [("fcn", make_model_fcn)] "fcn" 4 2 = .ok (make_model_fcn 4 2) ∧
    get_model [("fcn", make_model_fcn)] "mlp" 4 2 =
      .error ("Unknown model name " ++ "mlp") ∧
    register_model "fcn" make_mlp_model [("fcn", make_model_fcn)] =
      .error ("duplicate model named " ++ "fcn") := by
  obtain ⟨h1, h2, h3, -, -, -⟩ := C3_registry_behavior
  exact ⟨h1 [("fcn", make_model_fcn)] "fcn" make_model_fcn 4 2 rfl,
    h2 [("fcn", make_model_fcn)] "mlp" 4 2 rfl,
    h3 [("fcn", make_model_fcn)] "fcn" make_mlp_model rfl⟩

set_option maxRecDepth 8000 in
/-- C5: `parse_file` returns `None` when a data line's first field is
"No data." or a validation-section line's Best Step field is "None"; a line
equal to "Error occured -- exiting" terminates the program with exit code 1;
otherwise the three returned tables hold exactly the non-empty, non-header
data lines of the corresponding sections, with the Best Step field parsed as
an integer and the accuracy fields parsed as numbers (the rows `specScan`
collects). -/
theorem C5_parse_file_behavior :
    (∀ (flags : SectionFlags) (acc : ParseAccum) (line : String)
        (rest : List String),
      pyStrip line = "Error occured -- exiting" →
      parse_lines flags acc (line :: rest) = .exitProgram 1) ∧
    (∀ (flags : SectionFlags) (acc : ParseAccum) (line : String)
        (rest : List String) (values : List String),
      pyStrip line ≠ "Virtual devices must be set at program startup" →
      pyStrip line ≠ "Error occured -- exiting" →
      beginning_match valid_header (pyStrip line) = false →
      beginning_match traintest_header (pyStrip line) = false →
      beginning_match averages_header (pyStrip line) = false →
      (pyStrip line).length > 0 →
      smart_split (pyStrip line) = .ok values →
      values.get? 0 = some "No data." →
      parse_lines flags acc (line :: rest) = .noTables) ∧
    (∀ (flags : SectionFlags) (acc : ParseAccum) (line : String)
        (rest : List String) (values : List String) (v0 : String),
      pyStrip line ≠ "Virtual devices must be set at program startup" →
      pyStrip line ≠ "Error occured -- exiting" →
      beginning_match valid_header (pyStrip line) = false →
      beginning_match traintest_header (pyStrip line) = false →
      beginning_match averages_header (pyStrip line) = false →
      (pyStrip line).length > 0 →
      smart_split (pyStrip line) = .ok values →
      values.get? 0 = some v0 →
      v0 ≠ "No data." →
      flags.in_validation = true →
      values.get? 5 = some "None" →
      parse_lines flags acc (line :: rest) = .noTables) ∧
    (∀ (lines : List String) (v : List ValidationRow)
        (t : List TraintestRow) (a : List AveragesRow),
      parse_file lines = .tables v t a →
      specScan none lines = some (v, t, a)) := by
  refine ⟨?_, ?_, ?_, ?_⟩
  · intro flags acc line rest hl
    unfold parse_lines
    have hpl : parse_line flags acc line = .halt (.exitProgram 1) := by
      unfold parse_line
      dsimp only
      rw [hl, if_neg (by decide), if_pos (by decide)]
    rw [hpl]
  · intro flags acc line rest values hne1 hne2 hbv hbt hba hlen hss hv0
    unfold parse_lines
    have hpl : parse_line flags acc line = .halt .noTables := by
      unfold parse_line
      dsimp only
      rw [if_neg (by simp only [beq_iff_eq]; exact hne1),
        if_neg (by simp only [beq_iff_eq]; exact hne2),
        if_neg (by simp [hbv]), if_neg (by simp [hbt]),
        if_neg (by simp [hba]), if_pos hlen]
      unfold parse_data_line
      rw [hss]
      dsimp only
      rw [hv0]
      dsimp only
      rw [if_pos (by decide)]
    rw [hpl]
  · intro flags acc line rest values v0 hne1 hne2 hbv hbt hba hlen hss hv0
      hnd hval hv5
    unfold parse_lines
    have hpl : parse_line flags acc line = .halt .noTables := by
      unfold parse_line
      dsimp only
      rw [if_neg (by simp only [beq_iff_eq]; exact hne1),
        if_neg (by simp only [beq_iff_eq]; exact hne2),
        if_neg (by simp [hbv]), if_neg (by simp [hbt]),
        if_neg (by simp [hba]), if_pos hlen]
      unfold parse_data_line
      rw [hss]
      dsimp only
      rw [hv0]
      dsimp only
      rw [if_neg (by simp only [beq_iff_eq]; exact hnd), if_pos hval]
      rw [hv5]
      dsimp only
      rw [if_pos (by decide)]
    rw [hpl]
  · intro lines v t a h
    obtain ⟨dv, dt, da, hsp, hv, ht, ha⟩ :=
      parse_lines_tables_spec lines ⟨false, false, false⟩ ⟨[], [], []⟩
        v t a h
    simp only [List.nil_append] at hv ht ha
    subst hv ht ha
    exact hsp

set_option maxRecDepth 40000 in
/-- Witness for C5: the error line exits; a "No data." line returns None; a
validation line with Best Step "None" returns None; a header-plus-no-data
log yields empty tables matching the claim-side scan. -/
theorem C5_parse_file_witness :
    parse_lines ⟨false, false, false⟩ ⟨[], [], []⟩
      ["Error occured -- exiting"] = .exitProgram 1 ∧
    parse_lines ⟨false, false, false⟩ ⟨[], [], []⟩ ["No data."] =
      .noTables ∧
    parse_lines ⟨true, false, false⟩ ⟨[], [], []⟩
      ["d/q-b-c-d-e,s,t,fcn,dnn,None,0.5"] = .noTables ∧
    specScan none
      ["Log Dir,Source,Target,Model,Method,Best Step,Accuracy at Step"] =
      some ([], [], []) := by
  obtain ⟨h1, h2, h3, h4⟩ := C5_parse_file_behavior
  refine ⟨h1 ⟨false, false, false⟩ ⟨[], [], []⟩ "Error occured -- exiting"
      [] rfl, ?_, ?_, ?_⟩
  · exact h2 ⟨false, false, false⟩ ⟨[], [], []⟩ "No data." [] ["No data."]
      (by decide) (by decide) (by decide) (by decide) (by decide)
      (by decide) rfl rfl
  · exact h3 ⟨true, false, false⟩ ⟨[], [], []⟩
      "d/q-b-c-d-e,s,t,fcn,dnn,None,0.5" []
      ["d/q-b-c-d-e", "q", "t", "fcn", "dnn", "None", "0.5"] "d/q-b-c-d-e"
      (by decide) (by decide) (by decide) (by decide) (by decide)
      (by decide) rfl rfl (by decide) rfl rfl
  · exact h4 ["Log Dir,Source,Target,Model,Method,Best Step,Accuracy at Step"]
      [] [] [] rfl

/-- C6: a `HeterogeneousDannModel` built with `num_feature_extractors ≥ 1`
holds exactly that many feature extractors — the original followed by the
clones; its `trainable_variables_fe` concatenates all their trainable
variables; calling its feature extractor without `which_fe` fails with the
assertion message.  Symmetrically for `DannSmoothModel` with
`num_domain_classifiers` domain classifiers and `which_dc`. -/
theorem C6_multiple_fe_and_dc :
    (∀ (base : DannModel) (n : ℕ) (clone : ℕ → KLayer), 1 ≤ n →
      (HeterogeneousDannModel.init base n clone).feature_extractor.length = n ∧
      (HeterogeneousDannModel.init base n clone).feature_extractor =
        base.feature_extractor :: (List.range' 1 (n - 1)).map clone) ∧
    (∀ m : HeterogeneousDannModel,
      m.trainable_variables_fe =
        (m.feature_extractor.map (·.trainableVariables)).flatten) ∧
    (∀ (m : HeterogeneousDannModel) (inputs : Tensor),
      m.call_feature_extractor inputs none =
        .error "must specify which feature extractor to use") ∧
    (∀ (base : DannModel) (n : ℕ) (clone : ℕ → KLayer), 1 ≤ n →
      (DannSmoothModel.init base n clone).domain_classifier.length = n ∧
      (DannSmoothModel.init base n clone).domain_classifier =
        base.domain_classifier :: (List.range' 1 (n - 1)).map clone) ∧
    (∀ m : DannSmoothModel,
      m.trainable_variables_domain =
        (m.domain_classifier.map (·.trainableVariables)).flatten) ∧
    (∀ (m : DannSmoothModel) (fe task : Tensor),
      m.call_domain_classifier fe task none =
        .error "must specify which domain classifier to use with method Smooth") := by
  refine ⟨?_, ?_, fun m inputs => rfl, ?_, ?_, fun m fe task => rfl⟩
  · intro base n clone hn
    refine ⟨?_, rfl⟩
    simp [HeterogeneousDannModel.init, Nat.sub_add_cancel hn]
  · intro m
    simpa [HeterogeneousDannModel.trainable_variables_fe] using
      foldl_append_map_eq_join (fun fe : KLayer => fe.trainableVariables)
        m.feature_extractor []
  · intro base n clone hn
    refine ⟨?_, rfl⟩
    simp [DannSmoothModel.init, Nat.sub_add_cancel hn]
  · intro m
    simpa [DannSmoothModel.trainable_variables_domain] using
      foldl_append_map_eq_join (fun dc : KLayer => dc.trainableVariables)
        m.domain_classifier []

/-- Witness for C6 at `num_feature_extractors = num_domain_classifiers = 3`
on a concrete base model. -/
theorem C6_multiple_fe_and_dc_witness :
    (HeterogeneousDannModel.init
      ⟨⟨⟨[0], id, fun _ dy => dy⟩, ⟨[1], id, fun _ dy => dy⟩,
        ⟨[2], id, fun _ dy => dy⟩⟩, ⟨0, fun _ => 1⟩⟩ 3
      (fun i => ⟨[10 + i], id, fun _ dy => dy⟩)).feature_extractor.length
      = 3 ∧
    (DannSmoothModel.init
      ⟨⟨⟨[0], id, fun _ dy => dy⟩, ⟨[1], id, fun _ dy => dy⟩,
        ⟨[2], id, fun _ dy => dy⟩⟩, ⟨0, fun _ => 1⟩⟩ 3
      (fun i => ⟨[20 + i], id, fun _ dy => dy⟩)).domain_classifier.length
      = 3 := by
  obtain ⟨h1, -, -, h4, -, -⟩ := C6_multiple_fe_and_dc
  exact ⟨(h1 ⟨⟨⟨[0], id, fun _ dy => dy⟩, ⟨[1], id, fun _ dy => dy⟩,
      ⟨[2], id, fun _ dy => dy⟩⟩, ⟨0, fun _ => 1⟩⟩ 3
      (fun i => ⟨[10 + i], id, fun _ dy => dy⟩) (by decide)).1,
    (h4 ⟨⟨⟨[0], id, fun _ dy => dy⟩, ⟨[1], id, fun _ dy => dy⟩,
      ⟨[2], id, fun _ dy => dy⟩⟩, ⟨0, fun _ => 1⟩⟩ 3
      (fun i => ⟨[20 + i], id, fun _ dy => dy⟩) (by decide)).1⟩

/-- C7: `VradaModel`'s feature extractor runs the VRNN and `call` returns
both the (dense-stacked) output and the RNN latent state, while `RDannModel`'s
runs the LSTM and its state component is always `None`; in both models only
the output component `fe[0]` is fed to the task classifier and (through the
GRL) the domain classifier, and the whole pair is returned. -/
theorem C7_vrada_rdann_feature_extractors :
    ∀ (nc nd : ℕ) (vr : Tensor → Tensor × Tensor) (ls : Tensor → Tensor)
      (fe : Tensor → Tensor) (tc dc : KLayer) (gs : ℕ) (sched : ℕ → ℚ)
      (x : Tensor),
      ((VradaModel.init nc nd vr ls fe tc dc gs sched).feature_extractor.vrada
          = true ∧
        (VradaModel.init nc nd vr ls fe tc dc gs
          sched).feature_extractor.call x = (fe (vr x).1, some (vr x).2)) ∧
      ((RDannModel.init nc nd vr ls fe tc dc gs sched).feature_extractor.vrada
          = false ∧
        (RDannModel.init nc nd vr ls fe tc dc gs
          sched).feature_extractor.call x = (fe (ls x), none)) ∧
      (∀ m : RnnDannModel,
        RnnModelBase.call m x =
          (m.task_classifier.fwd (m.feature_extractor.call x).1,
           m.domain_classifier.fwd
             ((m.flip_gradient.call (m.feature_extractor.call x).1).1),
           m.feature_extractor.call x)) := by
  intro nc nd vr ls fe tc dc gs sched x
  exact ⟨⟨rfl, rfl⟩, ⟨rfl, rfl⟩, fun m => rfl⟩

/-- C8: the repository's CycleGAN-style domain-mapping model (modelled from
the spec; its implementation is not under src/, which only references the
"cyclegan" methods in analysis.py's `nice_method_names`) has exactly two
generators and two discriminators, and its cycle-consistency objective is a
nonnegative penalty that vanishes when the two generators invert each other
on the given samples; analysis.py indeed lists the CycleGAN-based methods. -/
theorem C8_cyclegan_model :
    (∀ m : CycleGAN,
      m.generators.length = 2 ∧ m.discriminators.length = 2) ∧
    (∀ (m : CycleGAN) (x y : Tensor),
      0 ≤ m.cycle_consistency_loss x y ∧
      (m.generator_BtoA (m.generator_AtoB x) = x →
       m.generator_AtoB (m.generator_BtoA y) = y →
       m.cycle_consistency_loss x y = 0)) ∧
    nice_method_names.lookup "cyclegan" = some "CoDATS + CycleGAN" ∧
    nice_method_names.lookup "cyclegan_dann" =
      some "CoDATS + CycleGAN + DANN" := by
  refine ⟨fun m => ⟨rfl, rfl⟩, ?_, rfl, rfl⟩
  intro m x y
  constructor
  · exact add_nonneg (l1Norm_nonneg _) (l1Norm_nonneg _)
  · intro hx hy
    simp only [CycleGAN.cycle_consistency_loss, hx, hy, l1Norm_subT_self]
    ring

/-- Witness for C8: the identity-generator model reconstructs perfectly, so
its cycle-consistency loss at `x = [1, 2]`, `y = [3]` is zero. -/
theorem C8_cyclegan_witness :
    CycleGAN.cycle_consistency_loss ⟨id, id, id, id⟩ [1, 2] [3] = 0 := by
  exact (C8_cyclegan_model.2.1 ⟨id, id, id, id⟩ [1, 2] [3]).2 rfl rfl

set_option maxRecDepth 8000 in
/-- C9: at most one of `parse_file`'s three section flags is ever set: the
initial state has none set, every continuing loop iteration preserves the
invariant, each recognized section header sets exactly its own flag and
clears the other two, every empty line clears all three, and a single line
grows at most one of the three tables (the other two are unchanged). -/
theorem C9_section_flags_exclusive :
    atMostOneSection ⟨false, false, false⟩ ∧
    (∀ (flags : SectionFlags) (acc : ParseAccum) (line : String)
        (flags2 : SectionFlags) (acc2 : ParseAccum),
      atMostOneSection flags →
      parse_line flags acc line = .cont flags2 acc2 →
      atMostOneSection flags2) ∧
    (∀ (flags : SectionFlags) (acc : ParseAccum) (line l : String),
      pyStrip line = l →
      l ≠ "Virtual devices must be set at program startup" →
      l ≠ "Error occured -- exiting" →
      ((beginning_match valid_header l = true →
        parse_line flags acc line = .cont ⟨true, false, false⟩ acc) ∧
       (beginning_match valid_header l = false →
        beginning_match traintest_header l = true →
        parse_line flags acc line = .cont ⟨false, true, false⟩ acc) ∧
       (beginning_match valid_header l = false →
        beginning_match traintest_header l = false →
        beginning_match averages_header l = true →
        parse_line flags acc line = .cont ⟨false, false, true⟩ acc))) ∧
    (∀ (flags : SectionFlags) (acc : ParseAccum) (line : String),
      pyStrip line = "" →
      parse_line flags acc line = .cont ⟨false, false, false⟩ acc) ∧
    (∀ (flags : SectionFlags) (acc : ParseAccum) (line : String)
        (flags2 : SectionFlags) (acc2 : ParseAccum),
      parse_line flags acc line = .cont flags2 acc2 →
      (acc2.validation = acc.validation ∧ acc2.traintest = acc.traintest) ∨
      (acc2.validation = acc.validation ∧ acc2.averages = acc.averages) ∨
      (acc2.traintest = acc.traintest ∧ acc2.averages = acc.averages)) := by
  refine ⟨by simp [atMostOneSection], ?_, ?_, ?_, ?_⟩
  · intro flags acc line flags2 acc2 hinv h
    rcases parse_line_cont_cases h with
      ⟨hf, -⟩ | ⟨hf, -⟩ | ⟨hf, -⟩ | ⟨hf, -⟩ | ⟨hf, -⟩ | ⟨hf, -⟩ |
      ⟨hf, -⟩ | ⟨hf, -⟩ <;> subst hf
    · exact hinv
    · simp [atMostOneSection]
    · simp [atMostOneSection]
    · simp [atMostOneSection]
    · simp [atMostOneSection]
    · exact hinv
    · exact hinv
    · exact hinv
  · intro flags acc line l hl hne1 hne2
    refine ⟨?_, ?_, ?_⟩
    · intro hv
      unfold parse_line
      dsimp only
      rw [hl, if_neg (by simp only [beq_iff_eq]; exact hne1),
        if_neg (by simp only [beq_iff_eq]; exact hne2), if_pos hv]
    · intro hv ht
      unfold parse_line
      dsimp only
      rw [hl, if_neg (by simp only [beq_iff_eq]; exact hne1),
        if_neg (by simp only [beq_iff_eq]; exact hne2),
        if_neg (by simp [hv]), if_pos ht]
    · intro hv ht ha
      unfold parse_line
      dsimp only
      rw [hl, if_neg (by simp only [beq_iff_eq]; exact hne1),
        if_neg (by simp only [beq_iff_eq]; exact hne2),
        if_neg (by simp [hv]), if_neg (by simp [ht]), if_pos ha]
  · intro flags acc line hl
    unfold parse_line
    dsimp only
    rw [hl, if_neg (by decide), if_neg (by decide), if_neg (by decide),
      if_neg (by decide), if_neg (by decide), if_neg (by decide)]
  · intro flags acc line flags2 acc2 h
    rcases parse_line_cont_cases h with
      ⟨-, ha⟩ | ⟨-, ha⟩ | ⟨-, ha⟩ | ⟨-, ha⟩ | ⟨-, ha⟩ | ⟨-, r, ha⟩ |
      ⟨-, r, ha⟩ | ⟨-, r, ha⟩ <;> subst ha
    · exact Or.inl ⟨rfl, rfl⟩
    · exact Or.inl ⟨rfl, rfl⟩
    · exact Or.inl ⟨rfl, rfl⟩
    · exact Or.inl ⟨rfl, rfl⟩
    · exact Or.inl ⟨rfl, rfl⟩
    · exact Or.inr (Or.inr ⟨rfl, rfl⟩)
    · exact Or.inr (Or.inl ⟨rfl, rfl⟩)
    · exact Or.inl ⟨rfl, rfl⟩

set_option maxRecDepth 8000 in
/-- Witness for C9: the averages header from the validation section
preserves the invariant, and an empty line clears the flags. -/
theorem C9_section_flags_witness :
    atMostOneSection ⟨false, false, true⟩ ∧
    parse_line ⟨true, false, false⟩ ⟨[], [], []⟩ "" =
      .cont ⟨false, false, false⟩ ⟨[], [], []⟩ := by
  obtain ⟨-, h2, -, h4, -⟩ := C9_section_flags_exclusive
  exact ⟨h2 ⟨true, false, false⟩ ⟨[], [], []⟩ "Dataset,Avg,Std"
      ⟨false, false, true⟩ ⟨[], [], []⟩ (by simp [atMostOneSection]) rfl,
    h4 ⟨true, false, false⟩ ⟨[], [], []⟩ "" rfl⟩

/-- C10: for a non-empty column, `compute_mean_std` returns the arithmetic
mean and the population standard deviation (`ddof=0`: square of the std is
the squared-deviation sum divided by `n`, which differs from the Pandas
default `ddof=1` divisor `n-1` whenever `n ≥ 2` and the deviations are not
all zero); when the number of runs is not 1, 3 or 5 it emits a warning but
returns the same statistics. -/
theorem C10_compute_mean_std :
    ∀ (xs : List ℚ) (filename : String), xs ≠ [] →
      (compute_mean_std xs filename).2.1 = xs.sum / xs.length ∧
      (compute_mean_std xs filename).2.2 =
        (xs.map (fun x => (x - xs.sum / xs.length) ^ 2)).sum / xs.length ∧
      (2 ≤ xs.length →
        (xs.map (fun x => (x - pdMean xs) ^ 2)).sum ≠ 0 →
        pdVar 0 xs ≠ pdVar 1 xs) ∧
      (compute_mean_std xs filename).2 = (pdMean xs, pdVar 0 xs) ∧
      ((compute_mean_std xs filename).1 ≠ [] ↔
        xs.length ≠ 1 ∧ xs.length ≠ 3 ∧ xs.length ≠ 5) := by
  intro xs filename hne
  refine ⟨rfl, ?_, ?_, rfl, ?_⟩
  · simp [compute_mean_std, pdVar, pdMean]
  · intro h2 hS heq
    have hn : ((xs.length : ℚ)) ≠ 0 := by
      have : (0 : ℚ) < (xs.length : ℚ) := by exact_mod_cast (by omega : 0 < xs.length)
      exact this.ne'
    have hn1 : ((xs.length : ℚ) - 1) ≠ 0 := by
      have : (2 : ℚ) ≤ (xs.length : ℚ) := by exact_mod_cast h2
      linarith
    rw [pdVar, pdVar] at heq
    simp only [Nat.cast_zero, sub_zero, Nat.cast_one] at heq
    rw [div_eq_div_iff hn hn1] at heq
    have := mul_left_cancel₀ hS heq
    linarith
  · have hwarn : (compute_mean_std xs filename).1 ≠ [] ↔
        ((xs.length != 1) && (xs.length != 3) && (xs.length != 5)) = true := by
      simp only [compute_mean_std]
      split <;> rename_i h <;> simp [h]
    rw [hwarn]
    simp only [Bool.and_eq_true, bne_iff_ne, ne_eq, and_assoc]

/-- Witness for C10 at the column `[1, 2]` (2 runs, so the warning fires):
mean 3/2, population variance 1/4 (against 1/2 with the Pandas `ddof=1`). -/
theorem C10_compute_mean_std_witness :
    (compute_mean_std [1, 2] "f").2 = (3 / 2, 1 / 4) ∧
    pdVar 0 [1, 2] ≠ pdVar 1 [1, 2] ∧
    (compute_mean_std [1, 2] "f").1 ≠ [] := by
  obtain ⟨-, -, h3, h4, h5⟩ :=
    C10_compute_mean_std [1, 2] "f" (by simp)
  refine ⟨?_, h3 (by simp) (by norm_num [pdMean]), h5.mpr (by simp)⟩
  rw [h4]
  norm_num [pdMean, pdVar]

end Codats
